import Mathlib

/-!
Verification development for the Situation-Monitor globe PWA.

The definitions below are shallow embeddings, over exact rationals, of the
JavaScript source of the repository:

* `latLongToVector3`                — apps/web/src/globe/latLong.js
* `SelectionHighlight.*`            — apps/web/src/layers/SelectionHighlight.js
  (the `SelectionHighlight` class: `slerpUnit`, `ringToLinePositions`, `tick`)
* `BoundaryLayer.*`                 — the `BoundaryLayer` class in the same
  bundle (its own copies of `slerpUnit` / `ringToLinePositions`)
* `CameraController.*`              — src/globe/CameraController.js
* `PlacesLayer.*`                   — the `NaturalEarthPopulatedPlacesLayer`
  class (zoom-driven label density)
* `LayerModel.*`                    — the BaseLayer/LayerManager lifecycle with
  asynchronous data loads
* `JsNum`, `SelectionHighlightJ.*`, `CameraControllerJ.*` — a second, IEEE-style
  embedding with NaN and signless infinities, used for the claims whose truth
  depends on JavaScript NaN propagation.

JavaScript numbers are modelled as exact rationals (ℚ); the transcendental
`Math.*` functions, which no rational function can realise exactly, are passed
in as an explicit bundle `JsMath` of rational-valued stand-ins, so every
theorem quantifies over them or constrains them by the identities the real
functions satisfy.  `Math.PI` is modelled by the rational constant `mathPI`
(the decimal value of the IEEE double `Math.PI`).
-/

/-- The rational value used for the JavaScript constant `Math.PI`. -/
def mathPI : ℚ := 3.141592653589793

/-- JavaScript `Math.max(a, b)` on (non-NaN) numbers. -/
def jsMax (a b : ℚ) : ℚ := if a < b then b else a

/-- JavaScript `Math.min(a, b)` on (non-NaN) numbers. -/
def jsMin (a b : ℚ) : ℚ := if b < a then b else a

/-- The `clamp(value, min, max) = Math.max(min, Math.min(max, value))` helper
that appears verbatim in SelectionHighlight.js, BoundaryLayer.js and
CameraController.js. -/
def jsClamp (value lo hi : ℚ) : ℚ := jsMax lo (jsMin hi value)

/-- A 3-component vector, the shape of the `{x, y, z}` records built by
`latLongToVector3` and `slerpUnit`. -/
structure Vec3 where
  x : ℚ
  y : ℚ
  z : ℚ
deriving DecidableEq, Repr

/-- Dot product of two vectors, as written out inline in the source
(`ua.x * ub.x + ua.y * ub.y + ua.z * ub.z`). -/
def dot3 (a b : Vec3) : ℚ := a.x * b.x + a.y * b.y + a.z * b.z

/-- The bundle of `Math.*` transcendental functions a piece of code uses.
They are parameters of the embedding: each theorem either holds for every
bundle or assumes exactly the identities the real functions satisfy. -/
structure JsMath where
  sin : ℚ → ℚ
  cos : ℚ → ℚ
  acos : ℚ → ℚ
  atan2 : ℚ → ℚ → ℚ
  tan : ℚ → ℚ
  sqrt : ℚ → ℚ

/-- `latLongToVector3(lat, lon, radius)` from apps/web/src/globe/latLong.js:
`phi = (90 - lat) * (Math.PI / 180)`, `theta = (lon + 180) * (Math.PI / 180)`,
`x = -radius·sin(phi)·cos(theta)`, `y = radius·cos(phi)`,
`z = radius·sin(phi)·sin(theta)`. -/
def latLongToVector3 (M : JsMath) (lat lon radius : ℚ) : Vec3 :=
  let phi := (90 - lat) * (mathPI / 180)
  let theta := (lon + 180) * (mathPI / 180)
  { x := -radius * M.sin phi * M.cos theta
    y := radius * M.cos phi
    z := radius * M.sin phi * M.sin theta }

/-- The step count `Math.max(1, Math.ceil(omega / maxSegmentRadians))` used by
both `ringToLinePositions` implementations. -/
def segmentCount (omega maxSegmentRadians : ℚ) : ℕ :=
  (max 1 ⌈omega / maxSegmentRadians⌉).toNat

namespace SelectionHighlight

/-- `SelectionHighlight.latLonToUnitVector(lat, lon)`: `latLongToVector3` at
unit radius. -/
def latLonToUnitVector (M : JsMath) (lat lon : ℚ) : Vec3 :=
  latLongToVector3 M lat lon 1

/-- `SelectionHighlight.slerpUnit(a, b, omega, t)`.  `omega < 1e-6` returns the
endpoint `a`; `sin(omega) < 1e-6` falls back to normalised linear
interpolation; otherwise the spherical linear interpolation formula. -/
def slerpUnit (M : JsMath) (a b : Vec3) (omega t : ℚ) : Vec3 :=
  if omega < 1/1000000 then { x := a.x, y := a.y, z := a.z }
  else
    let sinOmega := M.sin omega
    if sinOmega < 1/1000000 then
      let x := a.x + (b.x - a.x) * t
      let y := a.y + (b.y - a.y) * t
      let z := a.z + (b.z - a.z) * t
      let invLen := 1 / M.sqrt (x * x + y * y + z * z)
      { x := x * invLen, y := y * invLen, z := z * invLen }
    else
      let s0 := M.sin ((1 - t) * omega) / sinOmega
      let s1 := M.sin (t * omega) / sinOmega
      { x := a.x * s0 + b.x * s1
        y := a.y * s0 + b.y * s1
        z := a.z * s0 + b.z * s1 }

/-- One iteration of the outer loop of
`SelectionHighlight.ringToLinePositions`: the positions emitted for the single
ring edge from `a` to `b` (both `[lon, lat]` pairs). -/
def edgePositions (M : JsMath) (maxSegmentRadians radius : ℚ) (a b : ℚ × ℚ) :
    List ℚ :=
  let ua := latLonToUnitVector M a.2 a.1
  let ub := latLonToUnitVector M b.2 b.1
  let dotv := jsClamp (dot3 ua ub) (-1) 1
  let omega := M.acos dotv
  let steps := segmentCount omega maxSegmentRadians
  (List.range steps).flatMap (fun s =>
    let t0 := (s : ℚ) / (steps : ℚ)
    let t1 := ((s : ℚ) + 1) / (steps : ℚ)
    let p0 := slerpUnit M ua ub omega t0
    let p1 := slerpUnit M ua ub omega t1
    [p0.x * radius, p0.y * radius, p0.z * radius,
     p1.x * radius, p1.y * radius, p1.z * radius])

/-- The ring-closing step of `ringToLinePositions`: copy the ring and append
the first coordinate when the first and last coordinates differ in either
component. -/
def closedRing : List (ℚ × ℚ) → List (ℚ × ℚ)
  | [] => []
  | first :: rest =>
    let lastc := (first :: rest).getLast (List.cons_ne_nil _ _)
    if first.1 ≠ lastc.1 ∨ first.2 ≠ lastc.2 then (first :: rest) ++ [first]
    else first :: rest

/-- `SelectionHighlight.ringToLinePositions(coords, radius)` with the
instance field `this.maxSegmentRadians` passed explicitly. -/
def ringToLinePositions (M : JsMath) (maxSegmentRadians : ℚ)
    (coords : List (ℚ × ℚ)) (radius : ℚ) : List ℚ :=
  if coords.length < 2 then []
  else
    let closed := closedRing coords
    (closed.zip closed.tail).flatMap fun e =>
      edgePositions M maxSegmentRadians radius e.1 e.2

end SelectionHighlight

namespace BoundaryLayer

/-- `BoundaryLayer.latLonToUnitVector(lat, lon)`: `latLongToVector3` at unit
radius. -/
def latLonToUnitVector (M : JsMath) (lat lon : ℚ) : Vec3 :=
  latLongToVector3 M lat lon 1

/-- `BoundaryLayer.slerpUnit(a, b, omega, t)`, transcribed from the
BoundaryLayer class. -/
def slerpUnit (M : JsMath) (a b : Vec3) (omega t : ℚ) : Vec3 :=
  if omega < 1/1000000 then { x := a.x, y := a.y, z := a.z }
  else
    let sinOmega := M.sin omega
    if sinOmega < 1/1000000 then
      let x := a.x + (b.x - a.x) * t
      let y := a.y + (b.y - a.y) * t
      let z := a.z + (b.z - a.z) * t
      let invLen := 1 / M.sqrt (x * x + y * y + z * z)
      { x := x * invLen, y := y * invLen, z := z * invLen }
    else
      let s0 := M.sin ((1 - t) * omega) / sinOmega
      let s1 := M.sin (t * omega) / sinOmega
      { x := a.x * s0 + b.x * s1
        y := a.y * s0 + b.y * s1
        z := a.z * s0 + b.z * s1 }

/-- One iteration of the outer loop of `BoundaryLayer.ringToLinePositions`. -/
def edgePositions (M : JsMath) (maxSegmentRadians radius : ℚ) (a b : ℚ × ℚ) :
    List ℚ :=
  let ua := latLonToUnitVector M a.2 a.1
  let ub := latLonToUnitVector M b.2 b.1
  let dotv := jsClamp (dot3 ua ub) (-1) 1
  let omega := M.acos dotv
  let steps := segmentCount omega maxSegmentRadians
  (List.range steps).flatMap (fun s =>
    let t0 := (s : ℚ) / (steps : ℚ)
    let t1 := ((s : ℚ) + 1) / (steps : ℚ)
    let p0 := slerpUnit M ua ub omega t0
    let p1 := slerpUnit M ua ub omega t1
    [p0.x * radius, p0.y * radius, p0.z * radius,
     p1.x * radius, p1.y * radius, p1.z * radius])

/-- The ring-closing step of `BoundaryLayer.ringToLinePositions`. -/
def closedRing : List (ℚ × ℚ) → List (ℚ × ℚ)
  | [] => []
  | first :: rest =>
    let lastc := (first :: rest).getLast (List.cons_ne_nil _ _)
    if first.1 ≠ lastc.1 ∨ first.2 ≠ lastc.2 then (first :: rest) ++ [first]
    else first :: rest

/-- `BoundaryLayer.ringToLinePositions(coords, radius)` with the instance
field `this.maxSegmentRadians` passed explicitly. -/
def ringToLinePositions (M : JsMath) (maxSegmentRadians : ℚ)
    (coords : List (ℚ × ℚ)) (radius : ℚ) : List ℚ :=
  if coords.length < 2 then []
  else
    let closed := closedRing coords
    (closed.zip closed.tail).flatMap fun e =>
      edgePositions M maxSegmentRadians radius e.1 e.2

end BoundaryLayer

namespace CameraController

/-- The `CameraController` constructor constant `this.baseRadius = 4`. -/
def baseRadius : ℚ := 4

/-- The constructor constant `this.minRadius = 1.05`. -/
def minRadius : ℚ := 1.05

/-- The constructor constant `this.maxRadius = 10`. -/
def maxRadius : ℚ := 10

/-- The constructor constant `this.minPhi = 0.1`. -/
def minPhi : ℚ := 0.1

/-- The constructor constant `this.maxPhi = Math.PI - 0.1`. -/
def maxPhi : ℚ := mathPI - 0.1

/-- The constructor constant `this.minFov = 4`. -/
def minFov : ℚ := 4

/-- The constructor constant `this.rotateSpeed = 0.005`. -/
def rotateSpeed : ℚ := 0.005

/-- The constructor constant `this.zoomSpeed = 1.08`. -/
def zoomSpeed : ℚ := 1.08

/-- Per-instance configuration: `this.baseFov = camera.fov`, the field of view
the camera was built with (`this.maxFov = this.baseFov`). -/
structure CamCfg where
  baseFov : ℚ
deriving DecidableEq

/-- The mutable camera state: `this.radius`, `this.theta`, `this.phi` and
`this.camera.fov`. -/
structure CamState where
  radius : ℚ
  theta : ℚ
  phi : ℚ
  fov : ℚ
deriving DecidableEq, Repr

/-- The state after the constructor: `radius = baseRadius`, `theta = 0`,
`phi = Math.PI / 2`, `camera.fov = baseFov`. -/
def initState (cfg : CamCfg) : CamState :=
  { radius := baseRadius, theta := 0, phi := mathPI / 2, fov := cfg.baseFov }

/-- `clampRadius(value)`. -/
def clampRadius (value : ℚ) : ℚ := jsMax minRadius (jsMin maxRadius value)

/-- `clampFov(value)` (`maxFov = baseFov`). -/
def clampFov (cfg : CamCfg) (value : ℚ) : ℚ :=
  jsMax minFov (jsMin cfg.baseFov value)

/-- `setFov(value)`: the new `camera.fov`, given the current one.  The write
is skipped when the clamped value is within `1e-6` of the current one. -/
def setFovVal (cfg : CamCfg) (cur value : ℚ) : ℚ :=
  let next := clampFov cfg value
  if |cur - next| < 1/1000000 then cur else next

/-- A bounds box handed to `focusOn`; all four fields are (finite) numbers in
this rational model. -/
structure Bounds where
  minLat : ℚ
  maxLat : ℚ
  minLon : ℚ
  maxLon : ℚ
deriving DecidableEq

/-- `CameraController.unitVectorFromLatLon(lat, lon)` (its own copy of the
`latLongToVector3` formula at unit radius). -/
def unitVectorFromLatLon (M : JsMath) (lat lon : ℚ) : Vec3 :=
  let phi := (90 - lat) * (mathPI / 180)
  let theta := (lon + 180) * (mathPI / 180)
  { x := -(M.sin phi) * M.cos theta
    y := M.cos phi
    z := M.sin phi * M.sin theta }

/-- `reset()`: `radius = baseRadius`, `setFov(baseFov)`, `theta = 0`,
`phi = Math.PI / 2`. -/
def reset (cfg : CamCfg) (st : CamState) : CamState :=
  { radius := baseRadius
    theta := 0
    phi := mathPI / 2
    fov := setFovVal cfg st.fov cfg.baseFov }

/-- `zoomIn()`: move closer while `radius / zoomSpeed ≥ minRadius + 1e-6`,
afterwards narrow the field of view. -/
def zoomIn (cfg : CamCfg) (st : CamState) : CamState :=
  let nextRadius := st.radius / zoomSpeed
  if minRadius + 1/1000000 ≤ nextRadius then
    { st with radius := clampRadius nextRadius }
  else
    { st with fov := setFovVal cfg st.fov (clampFov cfg (st.fov / zoomSpeed)) }

/-- `zoomOut()`: undo the field-of-view zoom first, then move back. -/
def zoomOut (cfg : CamCfg) (st : CamState) : CamState :=
  if st.fov < cfg.baseFov - 1/1000000 then
    { st with fov := setFovVal cfg st.fov (clampFov cfg (st.fov * zoomSpeed)) }
  else
    { st with radius := clampRadius (st.radius * zoomSpeed) }

/-- `getZoomFactor()`: distance zoom times field-of-view zoom. -/
def getZoomFactor (cfg : CamCfg) (st : CamState) : ℚ :=
  (baseRadius / st.radius) * (cfg.baseFov / st.fov)

/-- `focusOn(regionBounds)`.  A missing bounds object (`none`) returns
immediately.  The JavaScript guard `typeof v !== 'number'` never fires in this
model because every `Bounds` field is a rational number (in JavaScript it also
lets every numeric value through, NaN and the infinities included; see the
`JsNum` model below for those). -/
def focusOn (M : JsMath) (cfg : CamCfg) (st : CamState)
    (regionBounds : Option Bounds) : CamState :=
  match regionBounds with
  | none => st
  | some rb =>
    let fov1 := setFovVal cfg st.fov cfg.baseFov
    let centerLat := (rb.minLat + rb.maxLat) / 2
    let centerLon := (rb.minLon + rb.maxLon) / 2
    let center := unitVectorFromLatLon M centerLat centerLon
    let theta1 := M.atan2 center.x center.z
    let phi1 := jsClamp (M.acos center.y) minPhi maxPhi
    let corners := [unitVectorFromLatLon M rb.minLat rb.minLon,
                    unitVectorFromLatLon M rb.minLat rb.maxLon,
                    unitVectorFromLatLon M rb.maxLat rb.minLon,
                    unitVectorFromLatLon M rb.maxLat rb.maxLon]
    let maxAlpha := corners.foldl
      (fun acc corner =>
        let alpha := M.acos (jsClamp (dot3 center corner) (-1) 1)
        if acc < alpha then alpha else acc) 0
    let fovRad := fov1 * mathPI / 180
    let halfFov := fovRad / 2
    let margin : ℚ := 0.9
    let gamma := jsMax 0.15 (halfFov * margin)
    let alpha := jsClamp maxAlpha 0.01 (mathPI / 2)
    let desiredRadius := M.cos alpha + M.sin alpha / M.tan gamma
    { radius := clampRadius desiredRadius
      theta := theta1
      phi := phi1
      fov := fov1 }

/-- The zoom loop body of `ensureZoomAtLeast`: up to `n` iterations of
`zoomIn`, stopping as soon as `getZoomFactor() ≥ minZoom - 1e-6`. -/
def ensureLoop (cfg : CamCfg) (minZoom : ℚ) : ℕ → CamState → CamState
  | 0, st => st
  | n + 1, st =>
    if minZoom - 1/1000000 ≤ getZoomFactor cfg st then st
    else ensureLoop cfg minZoom n (zoomIn cfg st)

/-- `ensureZoomAtLeast(minZoomFactor, {maxSteps})`: no-op for a non-positive
target; the step count is capped at 256. -/
def ensureZoomAtLeast (cfg : CamCfg) (st : CamState) (minZoom : ℚ)
    (maxSteps : ℕ) : CamState :=
  if minZoom ≤ 0 then st
  else ensureLoop cfg minZoom (min 256 maxSteps) st

/-- `onPointerMove` while dragging: rotate by the drag deltas scaled by
`rotateSpeed * dragScale / Math.max(1, effectiveZoom)`; `phi` is clamped to
`[minPhi, maxPhi]`. -/
def pointerDrag (cfg : CamCfg) (st : CamState) (dx dy : ℚ) : CamState :=
  let dragScale := st.radius / baseRadius
  let distanceZoom := baseRadius / st.radius
  let fovZoom := cfg.baseFov / st.fov
  let effectiveZoom := distanceZoom * fovZoom
  let rotateStep := rotateSpeed * dragScale / jsMax 1 effectiveZoom
  { st with
    theta := st.theta - dx * rotateStep
    phi := jsClamp (st.phi - dy * rotateStep) minPhi maxPhi }

/-- The camera states reachable from the constructor state through the public
operations (`reset`, `zoomIn`, `zoomOut`, `focusOn`, `ensureZoomAtLeast`, and
pointer-drag updates with arbitrary deltas). -/
inductive Reachable (cfg : CamCfg) : CamState → Prop
  | init : Reachable cfg (initState cfg)
  | reset {st} : Reachable cfg st → Reachable cfg (reset cfg st)
  | zoomIn {st} : Reachable cfg st → Reachable cfg (zoomIn cfg st)
  | zoomOut {st} : Reachable cfg st → Reachable cfg (zoomOut cfg st)
  | focusOn {st} (M : JsMath) (b : Option Bounds) :
      Reachable cfg st → Reachable cfg (focusOn M cfg st b)
  | ensureZoomAtLeast {st} (minZoom : ℚ) (maxSteps : ℕ) :
      Reachable cfg st → Reachable cfg (ensureZoomAtLeast cfg st minZoom maxSteps)
  | drag {st} (dx dy : ℚ) :
      Reachable cfg st → Reachable cfg (pointerDrag cfg st dx dy)

/-- The documented camera-state invariant: radius, polar angle and field of
view stay within their configured bounds. -/
def Inv (cfg : CamCfg) (st : CamState) : Prop :=
  minRadius ≤ st.radius ∧ st.radius ≤ maxRadius ∧
  minPhi ≤ st.phi ∧ st.phi ≤ maxPhi ∧
  minFov ≤ st.fov ∧ st.fov ≤ cfg.baseFov

end CameraController

namespace SelectionHighlight

/-- One active highlight as stored in `this.highlights`: start time, duration,
the per-material base opacities captured at creation, the current material
opacities, and the owned render objects. -/
structure Highlight where
  startMs : ℚ
  durationMs : ℚ
  baseOpacities : List ℚ
  opacities : List ℚ
  objects : List ℕ
deriving DecidableEq

/-- `SelectionHighlight.tick(nowMs)`.  The source iterates the `highlights`
array from the last index down to 0, splicing expired entries out and
releasing their objects; processing the list by `foldr` performs exactly that
reverse iteration.  Returns the surviving highlights (in order) together with
the released render objects. -/
def tick (M : JsMath) (nowMs : ℚ) (highlights : List Highlight) :
    List Highlight × List ℕ :=
  highlights.foldr
    (fun h acc =>
      let t := (nowMs - h.startMs) / h.durationMs
      if 1 ≤ t then
        (acc.1, h.objects ++ acc.2)
      else
        let fadeLinear := 1 - t
        let fade := fadeLinear * fadeLinear
        let pulse := 0.15 + 0.85 * M.sin (t * mathPI)
        ({ h with opacities := h.baseOpacities.map fun b => b * fade * pulse }
          :: acc.1, acc.2))
    ([], [])

end SelectionHighlight

namespace PlacesLayer

/-- The `NaturalEarthPopulatedPlacesLayer` fields that
`updateDensityForZoom` / `rebuildLabels` read and write.  Render objects are
tagged with `isSprite`, mirroring the `obj?.isSprite !== true` filter of
`disposeLabelSprites`; `hasGeojson` / `hasGlobe` model `this.geojson` and
`this._globe` being non-null. -/
structure Obj where
  id : ℕ
  isSprite : Bool
deriving DecidableEq

/-- The layer state read and written by the density logic. -/
structure State where
  maxScaleRank : ℚ
  maxLabels : ℚ
  currentMaxScaleRank : ℚ
  currentMaxLabels : ℚ
  enabled : Bool
  hasGeojson : Bool
  hasGlobe : Bool
  labelSprites : List Obj
  objects : List Obj
deriving DecidableEq

/-- The bucketed density table of `updateDensityForZoom`: the
`(desiredRank, desiredLabels)` pair selected for a zoom factor `z`. -/
def selectTier (st : State) (z : ℚ) : ℚ × ℚ :=
  if z < 1.4 then (jsMin st.maxScaleRank 3, jsMin st.maxLabels 140)
  else if z < 2.2 then (jsMin st.maxScaleRank 4, jsMin st.maxLabels 220)
  else if z < 3.2 then (jsMin st.maxScaleRank 5, jsMin st.maxLabels 320)
  else if z < 4.8 then (jsMin st.maxScaleRank 6, jsMin st.maxLabels 440)
  else if z < 6.5 then (jsMin st.maxScaleRank 7, jsMin st.maxLabels 520)
  else if z < 8.5 then (jsMin st.maxScaleRank 8, jsMin st.maxLabels 600)
  else if z < 10.5 then (jsMin st.maxScaleRank 9, jsMin st.maxLabels 700)
  else (st.maxScaleRank, st.maxLabels)

/-- `rebuildLabels()`: no-op without a globe or data; otherwise dispose the
current label sprites (dropping every sprite from `objects`), then add the
freshly built sprites.  The sprites built from the current feature set are a
parameter, since feature data lives outside this model. -/
def rebuildLabels (st : State) (newSprites : List Obj) : State :=
  if st.hasGlobe = false ∨ st.hasGeojson = false then st
  else
    { st with
      labelSprites := newSprites
      objects := st.objects.filter (fun o => o.isSprite ≠ true) ++ newSprites }

/-- `updateDensityForZoom(zoomFactor)`.  `Number(zoomFactor) || 1` maps a zero
(or NaN) zoom to 1; if the selected tier equals the applied one the method
returns before touching anything; otherwise it records the new tier and, when
enabled with data and a globe, rebuilds the labels. -/
def updateDensityForZoom (st : State) (zoomFactor : ℚ) (newSprites : List Obj) :
    State :=
  let z := if zoomFactor = 0 then 1 else zoomFactor
  let desired := selectTier st z
  if desired.1 = st.currentMaxScaleRank ∧ desired.2 = st.currentMaxLabels then st
  else
    let st1 := { st with currentMaxScaleRank := desired.1,
                         currentMaxLabels := desired.2 }
    if st1.enabled = false ∨ st1.hasGeojson = false ∨ st1.hasGlobe = false then st1
    else rebuildLabels st1 newSprites

end PlacesLayer

namespace LayerModel

/-- The lifecycle state of one registered layer following the
`BaseLayer`/`BoundaryLayer` pattern: the `enabled` flag, the owned render
objects (`this.objects`), and the number of asynchronous load callbacks still
outstanding (each `enable` chains one `.then` callback on the memoised data
promise). -/
structure State where
  enabled : Bool
  objects : List ℕ
  pending : ℕ
deriving DecidableEq, Repr

/-- The state after `register`: disabled, no objects, no outstanding load. -/
def initState : State := { enabled := false, objects := [], pending := 0 }

/-- `LayerManager.enableLayer(id)`: a no-op when already enabled, otherwise
`layer.enable(...)` sets `enabled = true` and starts/joins the data load,
leaving one more resolution callback outstanding. -/
def enableLayer (st : State) : State :=
  if st.enabled then st
  else { st with enabled := true, pending := st.pending + 1 }

/-- `LayerManager.disableLayer(id)`: a no-op when already disabled, otherwise
`layer.disable(...)` sets `enabled = false`, removes every owned object and
clears `this.objects`. -/
def disableLayer (st : State) : State :=
  if st.enabled then { st with enabled := false, objects := [] } else st

/-- A data load resolving: the callback fires with the built objects, but
first checks `if (!this.enabled) return;` — a layer disabled while the load
was in flight is left untouched. -/
def resolveLoad (st : State) (built : List ℕ) : State :=
  if st.pending = 0 then st
  else if st.enabled then { st with pending := st.pending - 1, objects := built }
  else { st with pending := st.pending - 1 }

/-- A data load failing: the `.catch` handler only reports a status message
and never touches `this.objects`. -/
def resolveError (st : State) : State :=
  if st.pending = 0 then st else { st with pending := st.pending - 1 }

/-- All layer states reachable from registration through enable/disable and
(possibly late) load resolutions. -/
inductive Reachable : State → Prop
  | init : Reachable initState
  | enable {st} : Reachable st → Reachable (enableLayer st)
  | disable {st} : Reachable st → Reachable (disableLayer st)
  | resolve {st} (built : List ℕ) : Reachable st → Reachable (resolveLoad st built)
  | resolveError {st} : Reachable st → Reachable (resolveError st)

end LayerModel

/-- A JavaScript number for the claims whose truth depends on IEEE special
values: an exact rational, NaN, or one of the two infinities.  (Negative zero
and rounding are not modelled; no claim below depends on them.) -/
inductive JsNum where
  | num (val : ℚ)
  | nan
  | inf
  | ninf
deriving DecidableEq, Repr

namespace JsNum

/-- IEEE negation. -/
def neg : JsNum → JsNum
  | num a => num (-a)
  | nan => nan
  | inf => ninf
  | ninf => inf

/-- IEEE addition: `∞ + (-∞) = NaN`, NaN propagates. -/
def add : JsNum → JsNum → JsNum
  | nan, _ => nan
  | _, nan => nan
  | num a, num b => num (a + b)
  | num _, inf => inf
  | num _, ninf => ninf
  | inf, num _ => inf
  | ninf, num _ => ninf
  | inf, inf => inf
  | ninf, ninf => ninf
  | inf, ninf => nan
  | ninf, inf => nan

/-- IEEE subtraction, `a - b = a + (-b)`. -/
def sub (a b : JsNum) : JsNum := add a (neg b)

/-- IEEE multiplication: `0 × ∞ = NaN`, NaN propagates, signs as usual. -/
def mul : JsNum → JsNum → JsNum
  | nan, _ => nan
  | _, nan => nan
  | num a, num b => num (a * b)
  | num a, inf => if a = 0 then nan else if 0 < a then inf else ninf
  | num a, ninf => if a = 0 then nan else if 0 < a then ninf else inf
  | inf, num b => if b = 0 then nan else if 0 < b then inf else ninf
  | ninf, num b => if b = 0 then nan else if 0 < b then ninf else inf
  | inf, inf => inf
  | ninf, ninf => inf
  | inf, ninf => ninf
  | ninf, inf => ninf

/-- IEEE division (with JavaScript `+0`): `x / 0` is `±∞` for nonzero `x` and
NaN for `x = 0`; a finite number over an infinity is `0`; `∞ / ∞ = NaN`. -/
def div : JsNum → JsNum → JsNum
  | nan, _ => nan
  | _, nan => nan
  | num a, num b =>
    if b = 0 then (if a = 0 then nan else if 0 < a then inf else ninf)
    else num (a / b)
  | num _, inf => num 0
  | num _, ninf => num 0
  | inf, num b => if 0 ≤ b then inf else ninf
  | ninf, num b => if 0 ≤ b then ninf else inf
  | inf, inf => nan
  | inf, ninf => nan
  | ninf, inf => nan
  | ninf, ninf => nan

/-- The JavaScript `<` comparison: false whenever either side is NaN. -/
def ltb : JsNum → JsNum → Bool
  | nan, _ => false
  | _, nan => false
  | num a, num b => decide (a < b)
  | num _, inf => true
  | num _, ninf => false
  | inf, _ => false
  | ninf, ninf => false
  | ninf, _ => true

/-- JavaScript `Math.abs`. -/
def abs : JsNum → JsNum
  | num a => num |a|
  | nan => nan
  | inf => inf
  | ninf => inf

/-- JavaScript `Math.max`: NaN if either argument is NaN. -/
def maxJ : JsNum → JsNum → JsNum
  | nan, _ => nan
  | _, nan => nan
  | a, b => if ltb a b then b else a

/-- JavaScript `Math.min`: NaN if either argument is NaN. -/
def minJ : JsNum → JsNum → JsNum
  | nan, _ => nan
  | _, nan => nan
  | a, b => if ltb b a then b else a

/-- The source `clamp` helper over JavaScript numbers. -/
def clampJ (value lo hi : JsNum) : JsNum := maxJ lo (minJ hi value)

end JsNum

/-- A 3-component vector of JavaScript numbers. -/
structure Vec3J where
  x : JsNum
  y : JsNum
  z : JsNum
deriving DecidableEq, Repr

/-- Dot product over JavaScript numbers, as written inline in the source. -/
def dot3J (a b : Vec3J) : JsNum :=
  ((a.x.mul b.x).add (a.y.mul b.y)).add (a.z.mul b.z)

/-- The `Math.*` bundle over JavaScript numbers.  The stand-ins used in the
concrete theorems below return NaN on NaN and on the infinities, as the real
`Math` functions do. -/
structure JsMathJ where
  sin : JsNum → JsNum
  cos : JsNum → JsNum
  acos : JsNum → JsNum
  atan2 : JsNum → JsNum → JsNum
  tan : JsNum → JsNum
  sqrt : JsNum → JsNum

/-- `Math.PI` as a JavaScript number. -/
def mathPIJ : JsNum := JsNum.num mathPI

namespace SelectionHighlightJ

/-- `SelectionHighlight.slerpUnit(a, b, omega, t)` over JavaScript numbers,
NaN and infinities included. -/
def slerpUnit (M : JsMathJ) (a b : Vec3J) (omega t : JsNum) : Vec3J :=
  if omega.ltb (JsNum.num (1/1000000)) then { x := a.x, y := a.y, z := a.z }
  else
    let sinOmega := M.sin omega
    if sinOmega.ltb (JsNum.num (1/1000000)) then
      let x := a.x.add ((b.x.sub a.x).mul t)
      let y := a.y.add ((b.y.sub a.y).mul t)
      let z := a.z.add ((b.z.sub a.z).mul t)
      let invLen := (JsNum.num 1).div
        (M.sqrt (((x.mul x).add (y.mul y)).add (z.mul z)))
      { x := x.mul invLen, y := y.mul invLen, z := z.mul invLen }
    else
      let s0 := (M.sin ((JsNum.num 1 |>.sub t).mul omega)).div sinOmega
      let s1 := (M.sin (t.mul omega)).div sinOmega
      { x := (a.x.mul s0).add (b.x.mul s1)
        y := (a.y.mul s0).add (b.y.mul s1)
        z := (a.z.mul s0).add (b.z.mul s1) }

end SelectionHighlightJ

namespace CameraControllerJ

/-- A bounds box whose fields are JavaScript numbers, so NaN and the
infinities can be passed to `focusOn` as they can in the source. -/
structure BoundsJ where
  minLat : JsNum
  maxLat : JsNum
  minLon : JsNum
  maxLon : JsNum
deriving DecidableEq

/-- Camera state over JavaScript numbers. -/
structure CamStateJ where
  radius : JsNum
  theta : JsNum
  phi : JsNum
  fov : JsNum
deriving DecidableEq, Repr

/-- `clampRadius` over JavaScript numbers (`minRadius = 1.05`,
`maxRadius = 10`). -/
def clampRadiusJ (value : JsNum) : JsNum :=
  JsNum.maxJ (JsNum.num CameraController.minRadius)
    (JsNum.minJ (JsNum.num CameraController.maxRadius) value)

/-- `clampFov` over JavaScript numbers. -/
def clampFovJ (baseFov value : JsNum) : JsNum :=
  JsNum.maxJ (JsNum.num CameraController.minFov) (JsNum.minJ baseFov value)

/-- `setFov` over JavaScript numbers: the resulting `camera.fov`. -/
def setFovValJ (baseFov cur value : JsNum) : JsNum :=
  let next := clampFovJ baseFov value
  if ((cur.sub next).abs).ltb (JsNum.num (1/1000000)) then cur else next

/-- `CameraController.unitVectorFromLatLon` over JavaScript numbers. -/
def unitVectorFromLatLonJ (M : JsMathJ) (lat lon : JsNum) : Vec3J :=
  let phi := ((JsNum.num 90).sub lat).mul (mathPIJ.div (JsNum.num 180))
  let theta := (lon.add (JsNum.num 180)).mul (mathPIJ.div (JsNum.num 180))
  { x := ((M.sin phi).neg).mul (M.cos theta)
    y := M.cos phi
    z := (M.sin phi).mul (M.sin theta) }

/-- `focusOn(regionBounds)` over JavaScript numbers.  The
`typeof v !== 'number'` guard lets every `JsNum` through — in JavaScript,
`typeof NaN` and `typeof Infinity` are both `'number'` — so it is the identity
on this model and the body always runs for a present bounds object. -/
def focusOnJ (M : JsMathJ) (baseFov : JsNum) (st : CamStateJ)
    (regionBounds : Option BoundsJ) : CamStateJ :=
  match regionBounds with
  | none => st
  | some rb =>
    let fov1 := setFovValJ baseFov st.fov baseFov
    let centerLat := (rb.minLat.add rb.maxLat).div (JsNum.num 2)
    let centerLon := (rb.minLon.add rb.maxLon).div (JsNum.num 2)
    let center := unitVectorFromLatLonJ M centerLat centerLon
    let theta1 := M.atan2 center.x center.z
    let phi1 := JsNum.clampJ (M.acos center.y)
      (JsNum.num CameraController.minPhi) (JsNum.num CameraController.maxPhi)
    let corners := [unitVectorFromLatLonJ M rb.minLat rb.minLon,
                    unitVectorFromLatLonJ M rb.minLat rb.maxLon,
                    unitVectorFromLatLonJ M rb.maxLat rb.minLon,
                    unitVectorFromLatLonJ M rb.maxLat rb.maxLon]
    let maxAlpha := corners.foldl
      (fun acc corner =>
        let alpha := M.acos (JsNum.clampJ (dot3J center corner)
          (JsNum.num (-1)) (JsNum.num 1))
        if acc.ltb alpha then alpha else acc) (JsNum.num 0)
    let fovRad := (fov1.mul mathPIJ).div (JsNum.num 180)
    let halfFov := fovRad.div (JsNum.num 2)
    let gamma := JsNum.maxJ (JsNum.num 0.15) (halfFov.mul (JsNum.num 0.9))
    let alpha := JsNum.clampJ maxAlpha (JsNum.num 0.01) (mathPIJ.div (JsNum.num 2))
    let desiredRadius := (M.cos alpha).add ((M.sin alpha).div (M.tan gamma))
    { radius := clampRadiusJ desiredRadius
      theta := theta1
      phi := phi1
      fov := fov1 }

end CameraControllerJ

section ClampLemmas

theorem jsMax_left (a b : ℚ) : a ≤ jsMax a b := by
  unfold jsMax; split_ifs with h
  · exact le_of_lt h
  · exact le_rfl

theorem jsMax_le {a b c : ℚ} (h1 : a ≤ c) (h2 : b ≤ c) : jsMax a b ≤ c := by
  unfold jsMax; split_ifs <;> assumption

theorem jsMin_le_left (a b : ℚ) : jsMin a b ≤ a := by
  unfold jsMin; split_ifs with h
  · exact le_of_lt h
  · exact le_rfl

theorem le_jsMin {a b c : ℚ} (h1 : c ≤ a) (h2 : c ≤ b) : c ≤ jsMin a b := by
  unfold jsMin; split_ifs <;> assumption

theorem jsClamp_lower (v lo hi : ℚ) : lo ≤ jsClamp v lo hi :=
  jsMax_left lo (jsMin hi v)

theorem jsClamp_upper {lo hi : ℚ} (v : ℚ) (h : lo ≤ hi) :
    jsClamp v lo hi ≤ hi :=
  jsMax_le h (jsMin_le_left hi v)

theorem jsClamp_eq_self {v lo hi : ℚ} (h1 : lo ≤ v) (h2 : v ≤ hi) :
    jsClamp v lo hi = v := by
  unfold jsClamp jsMax jsMin
  split_ifs with ha hb hc <;> linarith

end ClampLemmas

/-- C9: the boundary-ring tessellation and the highlight-flash tessellation
are one and the same function — for every math bundle, step bound, input ring
and radius, `BoundaryLayer.ringToLinePositions` and
`SelectionHighlight.ringToLinePositions` (together with their `slerpUnit` /
`latLonToUnitVector` helpers) produce identical position lists. -/
theorem ringToLinePositions_implementations_agree :
    @SelectionHighlight.ringToLinePositions = @BoundaryLayer.ringToLinePositions :=
  rfl

/-- C10: `ringToLinePositions` closes open rings.  An input with fewer than
two coordinates yields an empty output; otherwise the ring that is tessellated
(`closedRing`) starts and ends at the first input coordinate, is the input
itself when the input is already closed (no duplicate closing edge), and is
the input with the first coordinate appended when the first and last
coordinates differ in either component. -/
theorem ringToLinePositions_closes_ring (coords : List (ℚ × ℚ)) :
    (coords.length < 2 → ∀ (M : JsMath) (maxSegmentRadians radius : ℚ),
      SelectionHighlight.ringToLinePositions M maxSegmentRadians coords radius = []) ∧
    (∀ first rest, coords = first :: rest →
      ((SelectionHighlight.closedRing coords).head? = some first ∧
       (SelectionHighlight.closedRing coords).getLast? = some first) ∧
      (∀ lastc, (first :: rest).getLast (List.cons_ne_nil _ _) = lastc →
        ((first.1 = lastc.1 ∧ first.2 = lastc.2 →
            SelectionHighlight.closedRing coords = coords) ∧
         (¬(first.1 = lastc.1 ∧ first.2 = lastc.2) →
            SelectionHighlight.closedRing coords = coords ++ [first])))) := by
  constructor
  · intro h M s r
    unfold SelectionHighlight.ringToLinePositions
    rw [if_pos h]
  · rintro first rest rfl
    have hgl : (first :: rest).getLast? =
        some ((first :: rest).getLast (List.cons_ne_nil _ _)) :=
      (List.getLast?_eq_getLast _ _)
    constructor
    · simp only [SelectionHighlight.closedRing]
      by_cases hc : first.1 ≠ ((first :: rest).getLast (List.cons_ne_nil _ _)).1 ∨
          first.2 ≠ ((first :: rest).getLast (List.cons_ne_nil _ _)).2
      · rw [if_pos hc]
        refine ⟨rfl, ?_⟩
        exact List.getLast?_concat _
      · rw [if_neg hc]
        push_neg at hc
        have hfl : first = (first :: rest).getLast (List.cons_ne_nil _ _) :=
          Prod.ext hc.1 hc.2
        exact ⟨rfl, by rw [hgl, ← hfl]⟩
    · rintro lastc rfl
      constructor
      · intro hEq
        simp only [SelectionHighlight.closedRing]
        rw [if_neg]
        push_neg
        exact hEq
      · intro hNe
        simp only [SelectionHighlight.closedRing]
        rw [if_pos]
        rcases not_and_or.mp hNe with h | h
        · exact Or.inl h
        · exact Or.inr h

/-- C10 witness: an open triangle ring is closed by appending its first
coordinate, and a one-point ring produces no output. -/
theorem ringToLinePositions_closes_ring_witness :
    SelectionHighlight.closedRing [((0:ℚ), (0:ℚ)), (1, 0), (0, 1)] =
      [((0:ℚ), (0:ℚ)), (1, 0), (0, 1)] ++ [(0, 0)] ∧
    (∀ (M : JsMath) (maxSegmentRadians radius : ℚ),
      SelectionHighlight.ringToLinePositions M maxSegmentRadians
        [((2:ℚ), (3:ℚ))] radius = []) := by
  constructor
  · exact (((ringToLinePositions_closes_ring
        [((0:ℚ), (0:ℚ)), (1, 0), (0, 1)]).2 (0, 0) [(1, 0), (0, 1)] rfl).2
        (0, 1) (by decide)).2 (by decide)
  · exact (ringToLinePositions_closes_ring [((2:ℚ), (3:ℚ))]).1 (by decide)

/-- C4: a layer that is not enabled owns no render objects, in every state
reachable through registration, enable, disable, and (possibly late) load
resolutions — in particular a data load that resolves after a disable does
not repopulate the layer. -/
theorem disabled_layer_owns_nothing :
    ∀ st, LayerModel.Reachable st → st.enabled = false → st.objects = [] := by
  intro st h
  induction h with
  | init => intro _; rfl
  | @enable st _ ih =>
    intro hdis
    unfold LayerModel.enableLayer at hdis ⊢
    by_cases hs : st.enabled
    · rw [if_pos hs] at hdis ⊢
      exact ih hdis
    · rw [if_neg hs] at hdis
      exact absurd hdis (by simp)
  | @disable st _ ih =>
    intro hdis
    unfold LayerModel.disableLayer at hdis ⊢
    by_cases hs : st.enabled
    · rw [if_pos hs]
    · rw [if_neg hs] at hdis ⊢
      exact ih hdis
  | @resolve st built _ ih =>
    intro hdis
    unfold LayerModel.resolveLoad at hdis ⊢
    by_cases hp : st.pending = 0
    · rw [if_pos hp] at hdis ⊢
      exact ih hdis
    · rw [if_neg hp] at hdis ⊢
      by_cases hs : st.enabled
      · rw [if_pos hs] at hdis
        exact absurd hdis (by simp [hs])
      · rw [if_neg hs] at hdis ⊢
        exact ih hdis
  | @resolveError st _ ih =>
    intro hdis
    unfold LayerModel.resolveError at hdis ⊢
    by_cases hp : st.pending = 0
    · rw [if_pos hp] at hdis ⊢
      exact ih hdis
    · rw [if_neg hp] at hdis ⊢
      exact ih hdis

/-- C4 witness: enable, then disable while the load is in flight, then the
load resolves — the disabled layer still owns nothing. -/
theorem disabled_layer_owns_nothing_witness :
    (LayerModel.resolveLoad
        (LayerModel.disableLayer (LayerModel.enableLayer LayerModel.initState))
        [5, 7]).objects = [] :=
  disabled_layer_owns_nothing _
    (LayerModel.Reachable.resolve [5, 7]
      (LayerModel.Reachable.disable
        (LayerModel.Reachable.enable LayerModel.Reachable.init)))
    (by decide)

/-- C6: if `updateDensityForZoom` selects the tier already applied, the call
returns the state unchanged — no label disposal or rebuild happens; and the
label sprites change only when the selected tier differs from the applied
one. -/
theorem updateDensity_same_tier_is_noop (st : PlacesLayer.State)
    (zoomFactor : ℚ) (newSprites : List PlacesLayer.Obj) :
    (PlacesLayer.selectTier st (if zoomFactor = 0 then 1 else zoomFactor) =
        (st.currentMaxScaleRank, st.currentMaxLabels) →
      PlacesLayer.updateDensityForZoom st zoomFactor newSprites = st) ∧
    ((PlacesLayer.updateDensityForZoom st zoomFactor newSprites).labelSprites ≠
        st.labelSprites →
      PlacesLayer.selectTier st (if zoomFactor = 0 then 1 else zoomFactor) ≠
        (st.currentMaxScaleRank, st.currentMaxLabels)) := by
  have hsame : PlacesLayer.selectTier st (if zoomFactor = 0 then 1 else zoomFactor) =
      (st.currentMaxScaleRank, st.currentMaxLabels) →
      PlacesLayer.updateDensityForZoom st zoomFactor newSprites = st := by
    intro h
    unfold PlacesLayer.updateDensityForZoom
    rw [if_pos]
    constructor
    · rw [h]
    · rw [h]
  refine ⟨hsame, ?_⟩
  intro hneq h
  exact hneq (by rw [hsame h])

/-- C6 witness: at zoom 1 with tier `(3, 140)` already applied, the call
leaves the layer untouched. -/
theorem updateDensity_same_tier_is_noop_witness :
    PlacesLayer.updateDensityForZoom
      { maxScaleRank := 3, maxLabels := 300, currentMaxScaleRank := 3,
        currentMaxLabels := 140, enabled := true, hasGeojson := true,
        hasGlobe := true, labelSprites := [⟨1, true⟩], objects := [⟨0, false⟩, ⟨1, true⟩] }
      1 [⟨2, true⟩] =
    { maxScaleRank := 3, maxLabels := 300, currentMaxScaleRank := 3,
      currentMaxLabels := 140, enabled := true, hasGeojson := true,
      hasGlobe := true, labelSprites := [⟨1, true⟩], objects := [⟨0, false⟩, ⟨1, true⟩] } :=
  (updateDensity_same_tier_is_noop _ _ _).1
    (by norm_num [PlacesLayer.selectTier, jsMin])

/-- C5: one `tick(nowMs)` expires every highlight whose progress
`t = (now - start)/duration` has reached 1 — its render objects are released
(each exactly once, since the highlight is dropped from the active list) —
and for every surviving highlight sets each material opacity (the core and
the halo copy alike) to `baseOpacity · (1-t)² · (0.15 + 0.85·sin(t·π))`. -/
theorem tick_expires_and_pulses (M : JsMath) (nowMs : ℚ)
    (hs : List SelectionHighlight.Highlight)
    (hdur : ∀ h ∈ hs, 0 < h.durationMs) :
    SelectionHighlight.tick M nowMs hs =
      (hs.filterMap (fun h =>
          if 1 ≤ (nowMs - h.startMs) / h.durationMs then none
          else some { h with opacities := h.baseOpacities.map fun b =>
            b * (1 - (nowMs - h.startMs) / h.durationMs) ^ 2 *
              (0.15 + 0.85 * M.sin ((nowMs - h.startMs) / h.durationMs * mathPI)) }),
       (hs.filter fun h => 1 ≤ (nowMs - h.startMs) / h.durationMs).flatMap
         fun h => h.objects) := by
  induction hs with
  | nil => rfl
  | cons h tl ih =>
    have ihh := ih fun g hg => hdur g (List.mem_cons_of_mem _ hg)
    simp only [SelectionHighlight.tick] at ihh ⊢
    rw [List.foldr_cons, ihh]
    by_cases ht : 1 ≤ (nowMs - h.startMs) / h.durationMs
    · simp only [if_pos ht, List.filterMap_cons, List.filter_cons,
        decide_eq_true_eq, ht, if_true, List.flatMap_cons]
    · simp only [if_neg ht, List.filterMap_cons, List.filter_cons,
        decide_eq_true_eq, ht, if_false]
      have hfun : (fun b : ℚ => b * ((1 - (nowMs - h.startMs) / h.durationMs) *
            (1 - (nowMs - h.startMs) / h.durationMs)) *
            (0.15 + 0.85 * M.sin ((nowMs - h.startMs) / h.durationMs * mathPI)))
          = fun b : ℚ => b * (1 - (nowMs - h.startMs) / h.durationMs) ^ 2 *
            (0.15 + 0.85 * M.sin ((nowMs - h.startMs) / h.durationMs * mathPI)) := by
        funext b
        ring
      rw [hfun]

/-- C5 witness: a two-highlight list, one expired and one mid-flight, with
positive durations. -/
theorem tick_expires_and_pulses_witness :
    (∀ h ∈ ([⟨0, 10, [0.45, 0.85], [0.45, 0.85], [3, 4]⟩,
             ⟨8, 10, [0.45, 0.85], [0.2, 0.4], [5]⟩] :
        List SelectionHighlight.Highlight), 0 < h.durationMs) ∧
    SelectionHighlight.tick
        ⟨fun _ => 0, fun _ => 0, fun _ => 0, fun _ _ => 0, fun _ => 0, fun _ => 0⟩
        12
        [⟨0, 10, [0.45, 0.85], [0.45, 0.85], [3, 4]⟩,
         ⟨8, 10, [0.45, 0.85], [0.2, 0.4], [5]⟩] =
      ([⟨8, 10, [0.45, 0.85],
          [0.45 * (1 - (12 - 8) / 10) ^ 2 * (0.15 + 0.85 * 0),
           0.85 * (1 - (12 - 8) / 10) ^ 2 * (0.15 + 0.85 * 0)], [5]⟩], [3, 4]) := by
  have hd : ∀ h ∈ ([⟨0, 10, [0.45, 0.85], [0.45, 0.85], [3, 4]⟩,
      ⟨8, 10, [0.45, 0.85], [0.2, 0.4], [5]⟩] :
      List SelectionHighlight.Highlight), 0 < h.durationMs := by
    intro h hh
    rcases List.mem_cons.mp hh with hh | hh
    · rw [hh]; norm_num
    · rcases List.mem_cons.mp hh with hh | hh
      · rw [hh]; norm_num
      · exact absurd hh (List.not_mem_nil _)
  refine ⟨hd, ?_⟩
  rw [tick_expires_and_pulses _ _ _ hd]
  norm_num [List.filterMap_cons, List.filter_cons, List.flatMap_cons]

namespace CameraController

theorem const_bounds_radius : minRadius ≤ maxRadius := by
  norm_num [minRadius, maxRadius]

theorem const_bounds_phi : minPhi ≤ maxPhi := by
  norm_num [minPhi, maxPhi, mathPI]

theorem clampRadius_bounds (v : ℚ) :
    minRadius ≤ clampRadius v ∧ clampRadius v ≤ maxRadius :=
  ⟨jsClamp_lower v minRadius maxRadius, jsClamp_upper v const_bounds_radius⟩

theorem clampFov_bounds {cfg : CamCfg} (hbase : minFov ≤ cfg.baseFov) (v : ℚ) :
    minFov ≤ clampFov cfg v ∧ clampFov cfg v ≤ cfg.baseFov :=
  ⟨jsClamp_lower v minFov cfg.baseFov, jsClamp_upper v hbase⟩

theorem setFovVal_bounds {cfg : CamCfg} (hbase : minFov ≤ cfg.baseFov)
    {cur : ℚ} (hcur : minFov ≤ cur ∧ cur ≤ cfg.baseFov) (v : ℚ) :
    minFov ≤ setFovVal cfg cur v ∧ setFovVal cfg cur v ≤ cfg.baseFov := by
  unfold setFovVal
  dsimp only
  split_ifs
  · exact hcur
  · exact clampFov_bounds hbase v

theorem init_inv (cfg : CamCfg) (hbase : minFov ≤ cfg.baseFov) :
    Inv cfg (initState cfg) := by
  refine ⟨?_, ?_, ?_, ?_, hbase, le_rfl⟩ <;>
    norm_num [initState, baseRadius, minRadius, maxRadius, minPhi, maxPhi, mathPI]

theorem reset_inv {cfg : CamCfg} {st : CamState} (hbase : minFov ≤ cfg.baseFov)
    (h : Inv cfg st) : Inv cfg (reset cfg st) := by
  obtain ⟨_, _, _, _, h5, h6⟩ := h
  have hf := setFovVal_bounds hbase ⟨h5, h6⟩ cfg.baseFov
  refine ⟨?_, ?_, ?_, ?_, hf.1, hf.2⟩ <;>
    norm_num [reset, baseRadius, minRadius, maxRadius, minPhi, maxPhi, mathPI]

theorem zoomIn_inv {cfg : CamCfg} {st : CamState} (hbase : minFov ≤ cfg.baseFov)
    (h : Inv cfg st) : Inv cfg (zoomIn cfg st) := by
  obtain ⟨h1, h2, h3, h4, h5, h6⟩ := h
  unfold zoomIn
  dsimp only
  split_ifs
  · exact ⟨(clampRadius_bounds _).1, (clampRadius_bounds _).2, h3, h4, h5, h6⟩
  · have hf := setFovVal_bounds hbase ⟨h5, h6⟩ (clampFov cfg (st.fov / zoomSpeed))
    exact ⟨h1, h2, h3, h4, hf.1, hf.2⟩

theorem zoomOut_inv {cfg : CamCfg} {st : CamState} (hbase : minFov ≤ cfg.baseFov)
    (h : Inv cfg st) : Inv cfg (zoomOut cfg st) := by
  obtain ⟨h1, h2, h3, h4, h5, h6⟩ := h
  unfold zoomOut
  split_ifs
  · have hf := setFovVal_bounds hbase ⟨h5, h6⟩ (clampFov cfg (st.fov * zoomSpeed))
    exact ⟨h1, h2, h3, h4, hf.1, hf.2⟩
  · exact ⟨(clampRadius_bounds _).1, (clampRadius_bounds _).2, h3, h4, h5, h6⟩

theorem focusOn_inv {cfg : CamCfg} {st : CamState} (hbase : minFov ≤ cfg.baseFov)
    (h : Inv cfg st) (M : JsMath) (b : Option Bounds) :
    Inv cfg (focusOn M cfg st b) := by
  obtain ⟨h1, h2, h3, h4, h5, h6⟩ := h
  cases b with
  | none => exact ⟨h1, h2, h3, h4, h5, h6⟩
  | some rb =>
    have hf := setFovVal_bounds hbase ⟨h5, h6⟩ cfg.baseFov
    exact ⟨(clampRadius_bounds _).1, (clampRadius_bounds _).2,
      jsClamp_lower _ _ _, jsClamp_upper _ const_bounds_phi, hf.1, hf.2⟩

theorem ensureLoop_inv {cfg : CamCfg} (hbase : minFov ≤ cfg.baseFov)
    (minZoom : ℚ) : ∀ (n : ℕ) {st : CamState}, Inv cfg st →
    Inv cfg (ensureLoop cfg minZoom n st) := by
  intro n
  induction n with
  | zero => intro st h; exact h
  | succ n ih =>
    intro st h
    unfold ensureLoop
    split_ifs
    · exact h
    · exact ih (zoomIn_inv hbase h)

theorem ensureZoomAtLeast_inv {cfg : CamCfg} {st : CamState}
    (hbase : minFov ≤ cfg.baseFov) (h : Inv cfg st) (minZoom : ℚ)
    (maxSteps : ℕ) : Inv cfg (ensureZoomAtLeast cfg st minZoom maxSteps) := by
  unfold ensureZoomAtLeast
  split_ifs
  · exact h
  · exact ensureLoop_inv hbase minZoom _ h

theorem pointerDrag_inv {cfg : CamCfg} {st : CamState} (h : Inv cfg st)
    (dx dy : ℚ) : Inv cfg (pointerDrag cfg st dx dy) := by
  obtain ⟨h1, h2, h3, h4, h5, h6⟩ := h
  exact ⟨h1, h2, jsClamp_lower _ _ _, jsClamp_upper _ const_bounds_phi, h5, h6⟩

end CameraController

/-- C3: for every camera state reachable from the constructor state through
the public operations (`reset`, `zoomIn`, `zoomOut`, `focusOn`,
`ensureZoomAtLeast`, pointer drags), the bounds
`minRadius ≤ radius ≤ maxRadius`, `minPhi ≤ phi ≤ maxPhi` and
`minFov ≤ fov ≤ maxFov` hold (with `maxFov = baseFov`, provided the camera was
constructed with `baseFov ≥ minFov`). -/
theorem camera_state_invariant (cfg : CameraController.CamCfg)
    (hbase : CameraController.minFov ≤ cfg.baseFov) :
    ∀ st, CameraController.Reachable cfg st → CameraController.Inv cfg st := by
  intro st h
  induction h with
  | init => exact CameraController.init_inv cfg hbase
  | reset _ ih => exact CameraController.reset_inv hbase ih
  | zoomIn _ ih => exact CameraController.zoomIn_inv hbase ih
  | zoomOut _ ih => exact CameraController.zoomOut_inv hbase ih
  | focusOn M b _ ih => exact CameraController.focusOn_inv hbase ih M b
  | ensureZoomAtLeast minZoom maxSteps _ ih =>
    exact CameraController.ensureZoomAtLeast_inv hbase ih minZoom maxSteps
  | drag dx dy _ ih => exact CameraController.pointerDrag_inv ih dx dy

/-- C3 witness: with the default 60-degree base field of view, the invariant
holds at the freshly constructed camera state. -/
theorem camera_state_invariant_witness :
    CameraController.Inv ⟨60⟩ (CameraController.initState ⟨60⟩) :=
  camera_state_invariant ⟨60⟩ (by norm_num [CameraController.minFov]) _
    CameraController.Reachable.init

theorem segmentCount_pos (omega maxSegmentRadians : ℚ) :
    1 ≤ segmentCount omega maxSegmentRadians := by
  unfold segmentCount
  have h := le_max_left 1 ⌈omega / maxSegmentRadians⌉
  omega

theorem slerpUnit_unit_norm (M : JsMath) (a b : Vec3) (omega t d : ℚ)
    (ha : dot3 a a = 1) (hb : dot3 b b = 1) (hdv : dot3 a b = d)
    (heps : ¬ omega < 1/1000000) (hsineps : ¬ M.sin omega < 1/1000000)
    (htrig : M.sin ((1 - t) * omega) ^ 2 + M.sin (t * omega) ^ 2 +
      2 * (M.sin ((1 - t) * omega) * (M.sin (t * omega) * d)) =
      M.sin omega ^ 2) :
    dot3 (SelectionHighlight.slerpUnit M a b omega t)
      (SelectionHighlight.slerpUnit M a b omega t) = 1 := by
  have hS : (0 : ℚ) < M.sin omega := by
    have := not_lt.mp hsineps
    linarith
  have hS0 : M.sin omega ≠ 0 := ne_of_gt hS
  rw [← hdv] at htrig
  simp only [SelectionHighlight.slerpUnit, if_neg heps, if_neg hsineps]
  unfold dot3 at ha hb htrig ⊢
  field_simp
  linear_combination (M.sin ((1 - t) * omega)) ^ 2 * ha +
    (M.sin (t * omega)) ^ 2 * hb + htrig

/-- C1: for a ring edge between sphere points `A` and `B`, with
`d = clamp(A·B, -1, 1)`, `ω = acos(d)` and step bound `s`, the tessellation
emits `n = max(1, ⌈ω/s⌉)` segments (which is `⌈ω/s⌉` whenever `ω > 0` and
`s > 0`); the `k`-th segment runs from the slerp formula at `k/n` to the slerp
formula at `(k+1)/n`, scaled by the target radius; each such point is unit
length (assuming the endpoint vectors are unit vectors and the stand-in `sin`
satisfies the product identity the real sine satisfies at the sample points);
and the cumulative chord angle `Σ (t_{k+1} - t_k)·ω` of the segments equals
`ω`. -/
theorem tessellation_edge_spec (M : JsMath)
    (latA lonA latB lonB radius maxSeg : ℚ) (ua ub : Vec3) (d omega : ℚ)
    (n : ℕ)
    (hua : ua = SelectionHighlight.latLonToUnitVector M latA lonA)
    (hub : ub = SelectionHighlight.latLonToUnitVector M latB lonB)
    (hdot : dot3 ua ub = d) (hdlo : -1 ≤ d) (hdhi : d ≤ 1)
    (homega : omega = M.acos d)
    (hn : n = segmentCount omega maxSeg)
    (hunitA : dot3 ua ua = 1) (hunitB : dot3 ub ub = 1)
    (heps : ¬ omega < 1/1000000) (hsineps : ¬ M.sin omega < 1/1000000)
    (htrig : ∀ k : ℕ, k ≤ n →
      M.sin ((1 - (k : ℚ) / (n : ℚ)) * omega) ^ 2 +
        M.sin ((k : ℚ) / (n : ℚ) * omega) ^ 2 +
        2 * (M.sin ((1 - (k : ℚ) / (n : ℚ)) * omega) *
          (M.sin ((k : ℚ) / (n : ℚ) * omega) * d)) = M.sin omega ^ 2) :
    ((0 < omega → 0 < maxSeg → (n : ℤ) = ⌈omega / maxSeg⌉) ∧
      (SelectionHighlight.edgePositions M maxSeg radius (lonA, latA)
        (lonB, latB)).length = 6 * n) ∧
    (SelectionHighlight.edgePositions M maxSeg radius (lonA, latA) (lonB, latB) =
      (List.range n).flatMap fun k =>
        [(M.sin ((1 - (k : ℚ) / (n : ℚ)) * omega) * ua.x +
            M.sin ((k : ℚ) / (n : ℚ) * omega) * ub.x) / M.sin omega * radius,
         (M.sin ((1 - (k : ℚ) / (n : ℚ)) * omega) * ua.y +
            M.sin ((k : ℚ) / (n : ℚ) * omega) * ub.y) / M.sin omega * radius,
         (M.sin ((1 - (k : ℚ) / (n : ℚ)) * omega) * ua.z +
            M.sin ((k : ℚ) / (n : ℚ) * omega) * ub.z) / M.sin omega * radius,
         (M.sin ((1 - ((k : ℚ) + 1) / (n : ℚ)) * omega) * ua.x +
            M.sin (((k : ℚ) + 1) / (n : ℚ) * omega) * ub.x) / M.sin omega * radius,
         (M.sin ((1 - ((k : ℚ) + 1) / (n : ℚ)) * omega) * ua.y +
            M.sin (((k : ℚ) + 1) / (n : ℚ) * omega) * ub.y) / M.sin omega * radius,
         (M.sin ((1 - ((k : ℚ) + 1) / (n : ℚ)) * omega) * ua.z +
            M.sin (((k : ℚ) + 1) / (n : ℚ) * omega) * ub.z) / M.sin omega * radius]) ∧
    (∀ k : ℕ, k ≤ n →
      dot3 (SelectionHighlight.slerpUnit M ua ub omega ((k : ℚ) / (n : ℚ)))
        (SelectionHighlight.slerpUnit M ua ub omega ((k : ℚ) / (n : ℚ))) = 1) ∧
    Finset.sum (Finset.range n)
      (fun k => (((k : ℚ) + 1) / (n : ℚ) - (k : ℚ) / (n : ℚ)) * omega) =
      omega := by
  have hnQ : (n : ℚ) ≠ 0 := by
    have h1 : 1 ≤ n := hn ▸ segmentCount_pos omega maxSeg
    exact Nat.cast_ne_zero.mpr (by omega)
  subst hua
  subst hub
  subst homega
  have hd2 : jsClamp (dot3 (SelectionHighlight.latLonToUnitVector M latA lonA)
      (SelectionHighlight.latLonToUnitVector M latB lonB)) (-1) 1 = d := by
    rw [hdot]
    exact jsClamp_eq_self hdlo hdhi
  have hedge : SelectionHighlight.edgePositions M maxSeg radius (lonA, latA)
      (lonB, latB) =
      (List.range n).flatMap (fun s =>
        [(SelectionHighlight.slerpUnit M
            (SelectionHighlight.latLonToUnitVector M latA lonA)
            (SelectionHighlight.latLonToUnitVector M latB lonB) (M.acos d)
            ((s : ℚ) / (n : ℚ))).x * radius,
         (SelectionHighlight.slerpUnit M
            (SelectionHighlight.latLonToUnitVector M latA lonA)
            (SelectionHighlight.latLonToUnitVector M latB lonB) (M.acos d)
            ((s : ℚ) / (n : ℚ))).y * radius,
         (SelectionHighlight.slerpUnit M
            (SelectionHighlight.latLonToUnitVector M latA lonA)
            (SelectionHighlight.latLonToUnitVector M latB lonB) (M.acos d)
            ((s : ℚ) / (n : ℚ))).z * radius,
         (SelectionHighlight.slerpUnit M
            (SelectionHighlight.latLonToUnitVector M latA lonA)
            (SelectionHighlight.latLonToUnitVector M latB lonB) (M.acos d)
            (((s : ℚ) + 1) / (n : ℚ))).x * radius,
         (SelectionHighlight.slerpUnit M
            (SelectionHighlight.latLonToUnitVector M latA lonA)
            (SelectionHighlight.latLonToUnitVector M latB lonB) (M.acos d)
            (((s : ℚ) + 1) / (n : ℚ))).y * radius,
         (SelectionHighlight.slerpUnit M
            (SelectionHighlight.latLonToUnitVector M latA lonA)
            (SelectionHighlight.latLonToUnitVector M latB lonB) (M.acos d)
            (((s : ℚ) + 1) / (n : ℚ))).z * radius]) := by
    simp only [SelectionHighlight.edgePositions]
    rw [hd2, ← hn]
  refine ⟨⟨?_, ?_⟩, ?_, ?_, ?_⟩
  · intro homegapos hspos
    have hq : (0 : ℚ) < M.acos d / maxSeg := div_pos homegapos hspos
    have hceil : 1 ≤ ⌈M.acos d / maxSeg⌉ := Int.ceil_pos.mpr hq
    rw [hn]
    unfold segmentCount
    rw [max_eq_right hceil]
    exact Int.toNat_of_nonneg (by omega)
  · rw [hedge, List.length_flatMap]
    simp only [Function.comp_def, List.length_cons, List.length_nil]
    simp [List.map_const', List.sum_replicate, smul_eq_mul, Nat.mul_comm]
  · rw [hedge]
    congr 1
    funext k
    simp only [SelectionHighlight.slerpUnit, if_neg heps, if_neg hsineps]
    simp only [List.cons.injEq, and_true]
    exact ⟨by ring, by ring, by ring, by ring, by ring, by ring⟩
  · intro k hk
    exact slerpUnit_unit_norm M _ _ _ _ d hunitA hunitB hdot heps hsineps
      (htrig k hk)
  · have hterm : ∀ k ∈ Finset.range n,
        (((k : ℚ) + 1) / (n : ℚ) - (k : ℚ) / (n : ℚ)) * M.acos d =
          M.acos d / (n : ℚ) := by
      intro k _
      field_simp
    rw [Finset.sum_congr rfl hterm, Finset.sum_const, Finset.card_range,
      nsmul_eq_mul]
    field_simp

/-- A concrete rational stand-in for `Math` used to exercise
`tessellation_edge_spec`: it realises unit endpoint vectors with rational dot
product `7/25` and satisfies the required sine product identity at the three
sample parameters of a two-segment edge. -/
def MTess : JsMath where
  sin := fun q =>
    if q = mathPI / 2 then 1
    else if q = mathPI / 3 then 24/25
    else if q = mathPI then 0
    else if q = 0 then 0
    else if q = 1 then 5
    else if q = 2 then 8
    else 0
  cos := fun q =>
    if q = mathPI then -1
    else if q = mathPI / 2 then 0
    else if q = mathPI / 3 then -7/25
    else 0
  acos := fun q => if q = 7/25 then 2 else 0
  atan2 := fun _ _ => 0
  tan := fun _ => 0
  sqrt := fun _ => 0

/-- C1 witness: the edge from `(lat 0, lon 0)` to `(lat 0, lon -120)` with
step bound 1 radian and stand-in `acos` value 2 is emitted as exactly
2 segments (12 numbers). -/
theorem tessellation_edge_spec_witness :
    (SelectionHighlight.edgePositions MTess 1 2 (0, 0) (-120, 0)).length =
      6 * 2 :=
  (tessellation_edge_spec MTess 0 0 0 (-120) 2 1
      ⟨1, 0, 0⟩ ⟨7/25, 0, 24/25⟩ (7/25) 2 2
      (by norm_num [SelectionHighlight.latLonToUnitVector, latLongToVector3,
        MTess, mathPI])
      (by norm_num [SelectionHighlight.latLonToUnitVector, latLongToVector3,
        MTess, mathPI])
      (by norm_num [dot3]) (by norm_num) (by norm_num)
      (by norm_num [MTess])
      (by norm_num [segmentCount]; decide)
      (by norm_num [dot3]) (by norm_num [dot3])
      (by norm_num)
      (by norm_num [MTess, mathPI])
      (by
        intro k hk
        interval_cases k <;> norm_num [MTess, mathPI])).1.2

/-- C2 (amended): `focusOn(bounds)` with a present, rational-valued bounds box
resets the field of view to its base value (exactly, when the current value
equals the base or is at least `1e-6` away from it), points the orbit angles
at the bounds center (`θ = atan2(center.x, center.z)`,
`φ = clamp(acos(center.y), minPhi, maxPhi)`), computes the maximum `acos` of
the clamped center–corner dot products, clamps it to `[0.01, π/2]`, takes
`γ = max(0.15, 0.9 · (half field of view in radians))`, and sets the distance
to `clampRadius(cos α + sin α / tan γ)`. -/
theorem focusOn_characterization (M : JsMath) (cfg : CameraController.CamCfg)
    (st : CameraController.CamState) (rb : CameraController.Bounds)
    (hbase : CameraController.minFov ≤ cfg.baseFov)
    (hfov : st.fov = cfg.baseFov ∨ 1/1000000 ≤ |st.fov - cfg.baseFov|) :
    CameraController.focusOn M cfg st (some rb) =
      (let center := CameraController.unitVectorFromLatLon M
          ((rb.minLat + rb.maxLat) / 2) ((rb.minLon + rb.maxLon) / 2)
       let alphaOf := fun c : Vec3 => M.acos (jsClamp (dot3 center c) (-1) 1)
       let maxAlpha := jsMax (jsMax (jsMax (jsMax 0
         (alphaOf (CameraController.unitVectorFromLatLon M rb.minLat rb.minLon)))
         (alphaOf (CameraController.unitVectorFromLatLon M rb.minLat rb.maxLon)))
         (alphaOf (CameraController.unitVectorFromLatLon M rb.maxLat rb.minLon)))
         (alphaOf (CameraController.unitVectorFromLatLon M rb.maxLat rb.maxLon))
       let alpha := jsClamp maxAlpha 0.01 (mathPI / 2)
       let gamma := jsMax 0.15 (cfg.baseFov * mathPI / 180 / 2 * 0.9)
       { radius := CameraController.clampRadius
           (M.cos alpha + M.sin alpha / M.tan gamma)
         theta := M.atan2 center.x center.z
         phi := jsClamp (M.acos center.y) CameraController.minPhi
           CameraController.maxPhi
         fov := cfg.baseFov }) := by
  have hclamp : CameraController.clampFov cfg cfg.baseFov = cfg.baseFov := by
    unfold CameraController.clampFov jsMax jsMin
    rw [if_neg (lt_irrefl _)]
    split_ifs with h
    · rfl
    · exact le_antisymm hbase (not_lt.mp h)
  have hsetfov : CameraController.setFovVal cfg st.fov cfg.baseFov =
      cfg.baseFov := by
    simp only [CameraController.setFovVal, hclamp]
    rcases hfov with h | h
    · rw [h]
      split_ifs <;> rfl
    · rw [if_neg (not_lt.mpr h)]
  simp only [CameraController.focusOn]
  rw [hsetfov]
  simp only [List.foldl_cons, List.foldl_nil]
  rfl

/-- A concrete rational stand-in for `Math` used for the `focusOn` claims: it
realises the bounds box `(-10..10, -170..170)` whose four corners sit at
angular distance `2.9` radians (about 166 degrees) from the bounds center. -/
def McFocus : JsMath where
  sin := fun q =>
    if q = mathPI / 2 then 1
    else if q = mathPI * (4/9) then 24/25
    else if q = mathPI * (5/9) then 24/25
    else if q = mathPI then 0
    else if q = mathPI * (1/18) then 7/25
    else if q = mathPI * (35/18) then -7/25
    else if q = 29/10 then 16/65
    else 0
  cos := fun q =>
    if q = mathPI then -1
    else if q = mathPI / 2 then 0
    else if q = mathPI * (4/9) then 7/25
    else if q = mathPI * (5/9) then -7/25
    else if q = mathPI * (1/18) then 24/25
    else if q = mathPI * (35/18) then 24/25
    else if q = 29/10 then -63/65
    else 0
  acos := fun q => if q = -576/625 then 29/10 else 0
  atan2 := fun _ _ => 0
  tan := fun q => if q = mathPI * (3/20) then 1/2 else 1
  sqrt := fun _ => 0

/-- C2 counterexample: for the wide bounds box `(-10..10, -170..170)` the code
sets the camera distance to 2 (the corner angle is clamped to `π/2` first),
while the radius formula of the claim — `cos α + sin α / tan γ` at the
unclamped maximum corner angle `α = 2.9` — clamps up to the minimum radius
`21/20`; the two disagree. -/
theorem focusOn_claimed_radius_counterexample :
    (CameraController.focusOn McFocus ⟨60⟩
        { radius := 4, theta := 0, phi := mathPI / 2, fov := 60 }
        (some { minLat := -10, maxLat := 10, minLon := -170, maxLon := 170 })).radius
      = 2 ∧
    (let center := CameraController.unitVectorFromLatLon McFocus
        ((-10 + 10) / 2) ((-170 + 170) / 2)
     let alphaOf := fun c : Vec3 =>
       McFocus.acos (jsClamp (dot3 center c) (-1) 1)
     let maxAlpha := jsMax (jsMax (jsMax
       (alphaOf (CameraController.unitVectorFromLatLon McFocus (-10) (-170)))
       (alphaOf (CameraController.unitVectorFromLatLon McFocus (-10) 170)))
       (alphaOf (CameraController.unitVectorFromLatLon McFocus 10 (-170))))
       (alphaOf (CameraController.unitVectorFromLatLon McFocus 10 170))
     let gamma := (60 : ℚ) * mathPI / 180 / 2 * 0.9
     CameraController.clampRadius
       (McFocus.cos maxAlpha + McFocus.sin maxAlpha / McFocus.tan gamma))
      = 21/20 ∧
    (2 : ℚ) ≠ 21/20 := by
  refine ⟨?_, ?_, by norm_num⟩
  · norm_num [CameraController.focusOn, CameraController.setFovVal,
      CameraController.clampFov, CameraController.clampRadius,
      CameraController.unitVectorFromLatLon, CameraController.minFov,
      CameraController.minPhi, CameraController.maxPhi,
      CameraController.minRadius, CameraController.maxRadius,
      List.foldl_cons, List.foldl_nil,
      jsClamp, jsMax, jsMin, dot3, McFocus, mathPI]
  · norm_num [CameraController.clampRadius,
      CameraController.unitVectorFromLatLon, CameraController.minRadius,
      CameraController.maxRadius, jsClamp, jsMax, jsMin, dot3, McFocus, mathPI]

/-- C2 witness for the amended characterization, at the base field of view 60
and a bounds box around southern England. -/
theorem focusOn_characterization_witness :
    CameraController.focusOn McFocus ⟨60⟩
        { radius := 4, theta := 0, phi := mathPI / 2, fov := 60 }
        (some { minLat := 51, maxLat := 52, minLon := -1, maxLon := 1 }) =
      (let center := CameraController.unitVectorFromLatLon McFocus
          ((51 + 52) / 2) ((-1 + 1) / 2)
       let alphaOf := fun c : Vec3 =>
         McFocus.acos (jsClamp (dot3 center c) (-1) 1)
       let maxAlpha := jsMax (jsMax (jsMax (jsMax 0
         (alphaOf (CameraController.unitVectorFromLatLon McFocus 51 (-1))))
         (alphaOf (CameraController.unitVectorFromLatLon McFocus 51 1)))
         (alphaOf (CameraController.unitVectorFromLatLon McFocus 52 (-1))))
         (alphaOf (CameraController.unitVectorFromLatLon McFocus 52 1))
       let alpha := jsClamp maxAlpha 0.01 (mathPI / 2)
       let gamma := jsMax 0.15 ((60 : ℚ) * mathPI / 180 / 2 * 0.9)
       { radius := CameraController.clampRadius
           (McFocus.cos alpha + McFocus.sin alpha / McFocus.tan gamma)
         theta := McFocus.atan2 center.x center.z
         phi := jsClamp (McFocus.acos center.y) CameraController.minPhi
           CameraController.maxPhi
         fov := 60 }) :=
  focusOn_characterization McFocus ⟨60⟩
    { radius := 4, theta := 0, phi := mathPI / 2, fov := 60 }
    { minLat := 51, maxLat := 52, minLon := -1, maxLon := 1 }
    (by norm_num [CameraController.minFov]) (Or.inl rfl)

/-- A stand-in `Math` bundle over JavaScript numbers for the antipodal slerp
input: `sin(π)` is the tiny positive double `1.2e-16`-like value (below the
`1e-6` threshold), `sqrt(0) = 0`, and every function returns NaN on NaN, as
the real `Math` functions do. -/
def McAntipodalJ : JsMathJ where
  sin := fun x => match x with
    | JsNum.num q => if q = mathPI then JsNum.num (1/10000000000000000)
                     else JsNum.num 0
    | _ => JsNum.nan
  cos := fun _ => JsNum.nan
  acos := fun _ => JsNum.nan
  atan2 := fun _ _ => JsNum.nan
  tan := fun _ => JsNum.nan
  sqrt := fun x => match x with
    | JsNum.num q => if q = 0 then JsNum.num 0 else JsNum.nan
    | _ => JsNum.nan

/-- C8: at exactly antipodal unit vectors with `ω = π` (so `sin ω` is below
the `1e-6` threshold and the near-antipodal fallback runs) and `t = 1/2` —
a sample point that tessellating such an edge does produce (`steps = 180`,
`s = 90`) — the linear interpolation is the zero vector, `invLen = 1/√0` is
`Infinity`, and `0 · Infinity` makes every component of the result NaN,
contradicting the claim that the fallback never produces NaN. -/
theorem slerpUnit_antipodal_nan :
    SelectionHighlightJ.slerpUnit McAntipodalJ
      { x := JsNum.num 1, y := JsNum.num 0, z := JsNum.num 0 }
      { x := JsNum.num (-1), y := JsNum.num 0, z := JsNum.num 0 }
      (JsNum.num mathPI) (JsNum.num (1/2)) =
      { x := JsNum.nan, y := JsNum.nan, z := JsNum.nan } := by
  norm_num [SelectionHighlightJ.slerpUnit, McAntipodalJ, JsNum.ltb,
    JsNum.add, JsNum.sub, JsNum.neg, JsNum.mul, JsNum.div, mathPI]

/-- The `sin` stand-in of `McNanJ`, the `Math` bundle over JavaScript numbers
for the NaN-bounds `focusOn` call: every function returns NaN on non-finite
input, and takes the rational values needed at the two finite arguments that
occur (`0.01` and `γ = (3/20)·π`). -/
def mcNanSin : JsNum → JsNum
  | JsNum.num q => JsNum.num (if q = 1/100 then 1/100 else 0)
  | _ => JsNum.nan

/-- The `cos` stand-in of `McNanJ`. -/
def mcNanCos : JsNum → JsNum
  | JsNum.num q => JsNum.num (if q = 1/100 then 9999/10000 else 0)
  | _ => JsNum.nan

/-- The `acos` stand-in of `McNanJ`. -/
def mcNanAcos : JsNum → JsNum
  | JsNum.num _ => JsNum.num 0
  | _ => JsNum.nan

/-- The `atan2` stand-in of `McNanJ`. -/
def mcNanAtan2 : JsNum → JsNum → JsNum
  | JsNum.num _, JsNum.num _ => JsNum.num 0
  | _, _ => JsNum.nan

/-- The `tan` stand-in of `McNanJ`. -/
def mcNanTan : JsNum → JsNum
  | JsNum.num q => if q = mathPI * (3/20) then JsNum.num (1/2) else JsNum.num 1
  | _ => JsNum.nan

/-- The stand-in bundle itself. -/
def McNanJ : JsMathJ where
  sin := mcNanSin
  cos := mcNanCos
  acos := mcNanAcos
  atan2 := mcNanAtan2
  tan := mcNanTan
  sqrt := fun _ => JsNum.nan

/-- C7: `focusOn` with a NaN-valued bounds field is not a no-op.  The
`typeof v !== 'number'` guard lets NaN through (its `typeof` is `'number'`),
so the call resets the field of view to base, sets `θ` and `φ` to NaN, and
overwrites the radius — every component of the camera state changes.  Only a
missing bounds object (the last conjunct) is actually a no-op. -/
theorem focusOn_nan_bounds_mutates_state :
    CameraControllerJ.focusOnJ McNanJ (JsNum.num 60)
        { radius := JsNum.num 4, theta := JsNum.num 0,
          phi := JsNum.num 1.57, fov := JsNum.num 40 }
        (some { minLat := JsNum.nan, maxLat := JsNum.num 52,
                minLon := JsNum.num (-1), maxLon := JsNum.num 1 }) =
      { radius := JsNum.num (21/20), theta := JsNum.nan, phi := JsNum.nan,
        fov := JsNum.num 60 } ∧
    ({ radius := JsNum.num (21/20), theta := JsNum.nan, phi := JsNum.nan,
       fov := JsNum.num 60 } : CameraControllerJ.CamStateJ) ≠
      { radius := JsNum.num 4, theta := JsNum.num 0, phi := JsNum.num 1.57,
        fov := JsNum.num 40 } ∧
    CameraControllerJ.focusOnJ McNanJ (JsNum.num 60)
        { radius := JsNum.num 4, theta := JsNum.num 0,
          phi := JsNum.num 1.57, fov := JsNum.num 40 } none =
      { radius := JsNum.num 4, theta := JsNum.num 0, phi := JsNum.num 1.57,
        fov := JsNum.num 40 } := by
  refine ⟨?_, by simp, rfl⟩
  norm_num [CameraControllerJ.focusOnJ, CameraControllerJ.setFovValJ,
    CameraControllerJ.clampFovJ, CameraControllerJ.clampRadiusJ,
    CameraControllerJ.unitVectorFromLatLonJ, mathPIJ, McNanJ,
    CameraController.minPhi, CameraController.maxPhi, CameraController.minFov,
    CameraController.minRadius, CameraController.maxRadius, mathPI,
    mcNanSin, mcNanCos, mcNanAcos, mcNanAtan2, mcNanTan,
    List.foldl_cons, List.foldl_nil, JsNum.clampJ, JsNum.maxJ, JsNum.minJ,
    JsNum.ltb, JsNum.abs, JsNum.add, JsNum.sub, JsNum.neg, JsNum.mul,
    JsNum.div, dot3J]
